import Mathlib

/-!
A verification development for the swap-server client of the loop
repository (`swap_server_client.go`).

The Go code is shallowly embedded: machine integers become `ℕ`/`ℤ` with
explicit wrapping where Go converts between widths, byte strings become
`List ℕ` (each entry `< 256`), Go's `(value, error)` return pairs become
`Option value × Option error`, and the gRPC stub, the TLS-credential
loader, the dialer and the wall clock are passed in as explicit
parameters.  `btcec.ParsePubKey` and its helpers (`decompressPoint`,
`KoblitzCurve.IsOnCurve`, `big.Int.Exp`, `big.Int.SetBytes`) are embedded
down to the modular arithmetic they perform on secp256k1.
-/

set_option maxRecDepth 40000
set_option maxHeartbeats 4000000
set_option exponentiation.threshold 300

/-! ## The secp256k1 field and `btcec.ParsePubKey` -/

/-- The secp256k1 field prime `P = 2^256 - 2^32 - 977` (btcec `S256().P`). -/
def secpP : ℕ := 2 ^ 256 - 2 ^ 32 - 977

/-- The secp256k1 curve constant `B = 7` (btcec `S256().B`). -/
def curveB : ℕ := 7

/-- btcec `curve.QPlus1Div4()`: the exponent `(P + 1) / 4` used by
`decompressPoint` to take a modular square root. -/
def qPlus1Div4 : ℕ := (secpP + 1) / 4

/-- Fuel-bounded binary modular exponentiation.  `powMod m fuel b e`
computes `b ^ e % m` whenever `e < 2 ^ fuel` (proved in `powMod_eq`); it
embeds Go's `new(big.Int).Exp(b, e, m)` in an executable form. -/
def powMod (m : ℕ) : ℕ → ℕ → ℕ → ℕ
  | 0, _, _ => 1 % m
  | fuel + 1, b, e =>
    if e = 0 then 1 % m
    else
      let r := powMod m fuel (b * b % m) (e / 2)
      if e % 2 = 1 then r * b % m else r

/-- btcec `isOdd(a)`: whether a (non-negative) big integer is odd. -/
def isOddNat (n : ℕ) : Bool := n % 2 == 1

/-- Go `new(big.Int).SetBytes`: big-endian interpretation of a byte string. -/
def bytesToNat (l : List ℕ) : ℕ := l.foldl (fun acc b => acc * 256 + b) 0

/-- btcec `decompressPoint(curve, x, ybit)`: the candidate square root
`y = (x³ + B) ^ ((P+1)/4) mod P`, negated mod `P` when its parity does not
match `ybit`; fails when the parity still does not match (only possible
when the adjusted value is `P` itself, i.e. the candidate root was `0`). -/
def decompressPoint (x : ℕ) (ybit : Bool) : Except String ℕ :=
  let x3 := x * x * x + curveB
  let y := powMod secpP 260 x3 qPlus1Div4
  let y1 := if ybit ≠ isOddNat y then secpP - y else y
  if ybit ≠ isOddNat y1 then .error "ybit doesn't match oddness"
  else .ok y1

/-- btcec `KoblitzCurve.IsOnCurve(x, y)`: whether `y² = x³ + B` in the
field, computed modulo `P` (the Go code converts both sides to field
values, which reduces them modulo `P`). -/
def isOnCurve (x y : ℕ) : Bool := (y * y) % secpP == (x * x * x + curveB) % secpP

/-- btcec `pubkeyCompressed` format magic `0x02`. -/
def pubkeyCompressed : ℕ := 2

/-- btcec `pubkeyUncompressed` format magic `0x04`. -/
def pubkeyUncompressed : ℕ := 4

/-- btcec `pubkeyHybrid` format magic `0x06`. -/
def pubkeyHybrid : ℕ := 6

/-- The final range and curve checks of btcec `ParsePubKey`: `X < P`,
`Y < P`, and the point is on the curve. -/
def checkPubKey (x y : ℕ) : Except String (ℕ × ℕ) :=
  if secpP ≤ x then .error "pubkey X parameter is >= to P"
  else if secpP ≤ y then .error "pubkey Y parameter is >= to P"
  else if isOnCurve x y = false then .error "pubkey isn't on secp256k1 curve"
  else .ok (x, y)

/-- btcec `ParsePubKey(pubKeyStr, S256())`: parses a serialized
uncompressed (65 bytes, magic `0x04`), hybrid (65 bytes, magic `0x06`) or
compressed (33 bytes, magic `0x02`/`0x03`, the low bit of the first byte
selecting the parity of `y`) secp256k1 public key, returning the affine
coordinates on success. -/
def parsePubKey (pubKeyStr : List ℕ) : Except String (ℕ × ℕ) :=
  if pubKeyStr.length = 0 then .error "pubkey string is empty"
  else
    let fmtByte := pubKeyStr.headI
    let ybit := isOddNat fmtByte
    let format := fmtByte &&& 254
    if pubKeyStr.length = 65 then
      if format ≠ pubkeyUncompressed ∧ format ≠ pubkeyHybrid then
        .error ("invalid magic in pubkey str: " ++ Nat.repr fmtByte)
      else
        let x := bytesToNat ((pubKeyStr.drop 1).take 32)
        let y := bytesToNat ((pubKeyStr.drop 33).take 32)
        if format = pubkeyHybrid ∧ ybit ≠ isOddNat y then
          .error "ybit doesn't match oddness"
        else checkPubKey x y
    else if pubKeyStr.length = 33 then
      if format ≠ pubkeyCompressed then
        .error ("invalid magic in compressed pubkey string: " ++ Nat.repr fmtByte)
      else
        let x := bytesToNat ((pubKeyStr.drop 1).take 32)
        match decompressPoint x ybit with
        | .error e => .error e
        | .ok y => checkPubKey x y
    else .error ("invalid pub key length " ++ Nat.repr pubKeyStr.length)

/-- Whether an `Except` result is a success. -/
def isOk {ε α : Type} : Except ε α → Bool
  | .ok _ => true
  | .error _ => false

instance {ε α : Type} [DecidableEq ε] [DecidableEq α] : DecidableEq (Except ε α)
  | .ok a, .ok b => decidable_of_iff (a = b) ⟨by rintro rfl; rfl, by intro h; cases h; rfl⟩
  | .ok _, .error _ => .isFalse (by intro h; cases h)
  | .error _, .ok _ => .isFalse (by intro h; cases h)
  | .error a, .error b => decidable_of_iff (a = b) ⟨by rintro rfl; rfl, by intro h; cases h; rfl⟩

/-! ## `encoding/hex` -/

/-- Go `encoding/hex.fromHexChar`: the value of one hexadecimal digit. -/
def hexDigitVal (c : Char) : Option ℕ :=
  if '0' ≤ c ∧ c ≤ '9' then some (c.toNat - '0'.toNat)
  else if 'a' ≤ c ∧ c ≤ 'f' then some (c.toNat - 'a'.toNat + 10)
  else if 'A' ≤ c ∧ c ≤ 'F' then some (c.toNat - 'A'.toNat + 10)
  else none

/-- Go `hex.DecodeString` on a character list: decodes consecutive pairs
of hexadecimal digits into bytes, failing on a non-digit or on odd
length (Go reports `InvalidByteError` or `ErrLength`; the client under
study discards the partial output, so the model returns `none`). -/
def hexDecodeChars : List Char → Option (List ℕ)
  | [] => some []
  | [_] => none
  | c1 :: c2 :: rest =>
    match hexDigitVal c1, hexDigitVal c2, hexDecodeChars rest with
    | some a, some b, some bs => some ((a * 16 + b) :: bs)
    | _, _, _ => none

/-- Go `hex.DecodeString` on a string. -/
def hexDecode (s : String) : Option (List ℕ) := hexDecodeChars s.data

/-! ## Contexts, deadlines and conversions -/

/-- A Go `context.Context`, reduced to the one observable the client
manipulates: its deadline (absolute time, `none` when the context carries
no deadline). -/
structure Ctx where
  deadline : Option ℤ
  deriving DecidableEq

/-- Go `context.WithTimeout(parent, d)` called at wall-clock time `now`:
the derived context's deadline is `now + d`, except that a parent deadline
that is already earlier is kept — the stricter of the two applies. -/
def withTimeout (parent : Ctx) (now d : ℤ) : Ctx :=
  match parent.deadline with
  | none => ⟨some (now + d)⟩
  | some pd => ⟨some (min pd (now + d))⟩

/-- Modelled from the spec: the constant `globalCallTimeout` is defined
elsewhere in the repository (not in `swap_server_client.go`); the spec
says only that it is a fixed global deadline, a constant duration on the
order of tens of seconds.  Thirty seconds, in nanoseconds. -/
def globalCallTimeout : ℤ := 30000000000

/-- Go conversion `uint64(i)` of an `int64` (used for
`uint64(amt)` in request construction): two's-complement wrap. -/
def int64ToUInt64 (i : ℤ) : ℕ := (i % 2 ^ 64).toNat

/-- Go conversion `btcutil.Amount(u)` of a wire `uint64` to the `int64`
amount type: two's-complement wrap. -/
def uint64ToInt64 (u : ℕ) : ℤ :=
  if u % 2 ^ 64 < 2 ^ 63 then (u % 2 ^ 64 : ℕ) else (u % 2 ^ 64 : ℕ) - 2 ^ 64

/-- A Go `time.Time`, reduced to the observable the client sends on the
wire: its Unix timestamp (`deadline.Unix()`). -/
structure GoTime where
  unix : ℤ
  deriving DecidableEq

/-- Go `var buf [33]byte; copy(buf[:], src)`: the first `min 33 (length
src)` bytes of `src`, the remainder of the zero-initialized buffer kept. -/
def copyTo33 (src : List ℕ) : List ℕ :=
  src.take 33 ++ List.replicate (33 - src.length) 0

/-! ## Wire messages (`looprpc`) -/

/-- `looprpc.ServerLoopOutTermsRequest` (empty). -/
structure ServerLoopOutTermsRequest where
  deriving DecidableEq

/-- `looprpc.ServerLoopOutTermsResponse`. -/
structure ServerLoopOutTermsResponse where
  minSwapAmount : ℕ
  maxSwapAmount : ℕ
  deriving DecidableEq

/-- `looprpc.ServerLoopOutQuoteRequest`. -/
structure ServerLoopOutQuoteRequest where
  amt : ℕ
  swapPublicationDeadline : ℤ
  deriving DecidableEq

/-- `looprpc.ServerLoopOutQuoteResponse`; `swapPaymentDest` arrives as a
hexadecimal string. -/
structure ServerLoopOutQuoteResponse where
  prepayAmt : ℕ
  swapFee : ℕ
  cltvDelta : ℤ
  swapPaymentDest : String
  deriving DecidableEq

/-- `looprpc.ServerLoopInTermsRequest` (empty). -/
structure ServerLoopInTermsRequest where
  deriving DecidableEq

/-- `looprpc.ServerLoopInTermsResponse`. -/
structure ServerLoopInTermsResponse where
  minSwapAmount : ℕ
  maxSwapAmount : ℕ
  deriving DecidableEq

/-- `looprpc.ServerLoopInQuoteRequest`. -/
structure ServerLoopInQuoteRequest where
  amt : ℕ
  deriving DecidableEq

/-- `looprpc.ServerLoopInQuoteResponse`. -/
structure ServerLoopInQuoteResponse where
  swapFee : ℕ
  cltvDelta : ℤ
  deriving DecidableEq

/-- `looprpc.ServerLoopOutRequest`. -/
structure ServerLoopOutRequest where
  swapHash : List ℕ
  amt : ℕ
  receiverKey : List ℕ
  swapPublicationDeadline : ℤ
  deriving DecidableEq

/-- `looprpc.ServerLoopOutResponse`; `senderKey` is a wire byte string of
whatever length the server sent. -/
structure ServerLoopOutResponse where
  swapInvoice : String
  prepayInvoice : String
  senderKey : List ℕ
  expiry : ℤ
  deriving DecidableEq

/-- `looprpc.ServerLoopInRequest`. -/
structure ServerLoopInRequest where
  swapHash : List ℕ
  amt : ℕ
  senderKey : List ℕ
  swapInvoice : String
  deriving DecidableEq

/-- `looprpc.ServerLoopInResponse`. -/
structure ServerLoopInResponse where
  receiverKey : List ℕ
  expiry : ℤ
  deriving DecidableEq

/-- A transport/application error reported by a gRPC call, carried
through unmodified. -/
abbrev GrpcError := String

/-- The generated gRPC stub `looprpc.SwapServerClient`: one function per
server method, each taking the (deadline-bearing) call context and the
request message. -/
structure SwapServerClient where
  loopOutTerms : Ctx → ServerLoopOutTermsRequest → Except GrpcError ServerLoopOutTermsResponse
  loopOutQuote : Ctx → ServerLoopOutQuoteRequest → Except GrpcError ServerLoopOutQuoteResponse
  loopInTerms : Ctx → ServerLoopInTermsRequest → Except GrpcError ServerLoopInTermsResponse
  loopInQuote : Ctx → ServerLoopInQuoteRequest → Except GrpcError ServerLoopInQuoteResponse
  newLoopOutSwap : Ctx → ServerLoopOutRequest → Except GrpcError ServerLoopOutResponse
  newLoopInSwap : Ctx → ServerLoopInRequest → Except GrpcError ServerLoopInResponse

/-! ## Domain values and errors -/

/-- `loop.LoopOutTerms` (amounts are `btcutil.Amount`, an `int64`). -/
structure LoopOutTerms where
  minSwapAmount : ℤ
  maxSwapAmount : ℤ
  deriving DecidableEq

/-- `loop.LoopOutQuote`; `swapPaymentDest` is the `[33]byte` array. -/
structure LoopOutQuote where
  prepayAmount : ℤ
  swapFee : ℤ
  cltvDelta : ℤ
  swapPaymentDest : List ℕ
  deriving DecidableEq

/-- `loop.LoopInTerms`. -/
structure LoopInTerms where
  minSwapAmount : ℤ
  maxSwapAmount : ℤ
  deriving DecidableEq

/-- `loop.LoopInQuote`. -/
structure LoopInQuote where
  swapFee : ℤ
  cltvDelta : ℤ
  deriving DecidableEq

/-- `loop.newLoopOutResponse`. -/
structure newLoopOutResponse where
  swapInvoice : String
  prepayInvoice : String
  senderKey : List ℕ
  expiry : ℤ
  deriving DecidableEq

/-- `loop.newLoopInResponse`. -/
structure newLoopInResponse where
  receiverKey : List ℕ
  expiry : ℤ
  deriving DecidableEq

/-- The Go `error` values the client can return, by construction site:
`rpcError` passes a gRPC call error through unmodified; `hexDecodeError`
is the error of `hex.DecodeString` passed through; `newError` is
`errors.New(msg)`; `errorf` is `fmt.Errorf(format, err)` carried as its
rendered message; `tlsLoadError` passes the error of
`credentials.NewClientTLSFromFile` through unmodified. -/
inductive ClientError where
  | rpcError (e : GrpcError)
  | hexDecodeError
  | newError (msg : String)
  | errorf (msg : String)
  | tlsLoadError (e : String)
  deriving DecidableEq

/-! ## The six client operations -/

/-- `grpcSwapServerClient.GetLoopOutTerms`. -/
def GetLoopOutTerms (s : SwapServerClient) (ctx : Ctx) (now : ℤ) :
    Option LoopOutTerms × Option ClientError :=
  let rpcCtx := withTimeout ctx now globalCallTimeout
  match s.loopOutTerms rpcCtx ⟨⟩ with
  | .error e => (none, some (.rpcError e))
  | .ok terms =>
    (some ⟨uint64ToInt64 terms.minSwapAmount, uint64ToInt64 terms.maxSwapAmount⟩, none)

/-- `grpcSwapServerClient.GetLoopOutQuote`. -/
def GetLoopOutQuote (s : SwapServerClient) (ctx : Ctx) (now : ℤ) (amt : ℤ)
    (swapPublicationDeadline : GoTime) : Option LoopOutQuote × Option ClientError :=
  let rpcCtx := withTimeout ctx now globalCallTimeout
  match s.loopOutQuote rpcCtx ⟨int64ToUInt64 amt, swapPublicationDeadline.unix⟩ with
  | .error e => (none, some (.rpcError e))
  | .ok quoteResp =>
    match hexDecode quoteResp.swapPaymentDest with
    | none => (none, some .hexDecodeError)
    | some dest =>
      if dest.length ≠ 33 then (none, some (.newError "invalid payment dest"))
      else
        (some ⟨uint64ToInt64 quoteResp.prepayAmt, uint64ToInt64 quoteResp.swapFee,
               quoteResp.cltvDelta, copyTo33 dest⟩, none)

/-- `grpcSwapServerClient.GetLoopInTerms`. -/
def GetLoopInTerms (s : SwapServerClient) (ctx : Ctx) (now : ℤ) :
    Option LoopInTerms × Option ClientError :=
  let rpcCtx := withTimeout ctx now globalCallTimeout
  match s.loopInTerms rpcCtx ⟨⟩ with
  | .error e => (none, some (.rpcError e))
  | .ok terms =>
    (some ⟨uint64ToInt64 terms.minSwapAmount, uint64ToInt64 terms.maxSwapAmount⟩, none)

/-- `grpcSwapServerClient.GetLoopInQuote`. -/
def GetLoopInQuote (s : SwapServerClient) (ctx : Ctx) (now : ℤ) (amt : ℤ) :
    Option LoopInQuote × Option ClientError :=
  let rpcCtx := withTimeout ctx now globalCallTimeout
  match s.loopInQuote rpcCtx ⟨int64ToUInt64 amt⟩ with
  | .error e => (none, some (.rpcError e))
  | .ok quoteResp =>
    (some ⟨uint64ToInt64 quoteResp.swapFee, quoteResp.cltvDelta⟩, none)

/-- `grpcSwapServerClient.NewLoopOutSwap`: sends the request, copies the
returned sender key into a zeroed 33-byte buffer, validates it with
`btcec.ParsePubKey`, and on success returns the populated response. -/
def NewLoopOutSwap (s : SwapServerClient) (ctx : Ctx) (now : ℤ) (swapHash : List ℕ)
    (amount : ℤ) (receiverKey : List ℕ) (swapPublicationDeadline : GoTime) :
    Option newLoopOutResponse × Option ClientError :=
  let rpcCtx := withTimeout ctx now globalCallTimeout
  match s.newLoopOutSwap rpcCtx
      ⟨swapHash, int64ToUInt64 amount, receiverKey, swapPublicationDeadline.unix⟩ with
  | .error e => (none, some (.rpcError e))
  | .ok swapResp =>
    let senderKey := copyTo33 swapResp.senderKey
    match parsePubKey senderKey with
    | .error e => (none, some (.errorf ("invalid sender key: " ++ e)))
    | .ok _ =>
      (some ⟨swapResp.swapInvoice, swapResp.prepayInvoice, senderKey, swapResp.expiry⟩, none)

/-- `grpcSwapServerClient.NewLoopInSwap`: sends the request, copies the
returned receiver key into a zeroed 33-byte buffer, validates it with
`btcec.ParsePubKey`, and on success returns the populated response.  The
error message on validation failure reads `invalid sender key`, exactly
as in `NewLoopOutSwap`. -/
def NewLoopInSwap (s : SwapServerClient) (ctx : Ctx) (now : ℤ) (swapHash : List ℕ)
    (amount : ℤ) (senderKey : List ℕ) (swapInvoice : String) :
    Option newLoopInResponse × Option ClientError :=
  let rpcCtx := withTimeout ctx now globalCallTimeout
  match s.newLoopInSwap rpcCtx ⟨swapHash, int64ToUInt64 amount, senderKey, swapInvoice⟩ with
  | .error e => (none, some (.rpcError e))
  | .ok swapResp =>
    let receiverKey := copyTo33 swapResp.receiverKey
    match parsePubKey receiverKey with
    | .error e => (none, some (.errorf ("invalid sender key: " ++ e)))
    | .ok _ => (some ⟨receiverKey, swapResp.expiry⟩, none)

/-! ## Connection construction -/

/-- Transport credentials as the client distinguishes them: pinned to a
certificate loaded from a file (`credentials.NewClientTLSFromFile`), or
the default TLS configuration (`credentials.NewTLS(&tls.Config{})`),
which validates against the system trust store. -/
structure TransportCredentials where
  pinnedCertFile : Option String
  deriving DecidableEq

/-- A `grpc.DialOption` as built by `getSwapServerConn`. -/
inductive DialOpt where
  | withUnaryInterceptor
  | withInsecure
  | withTransportCredentials (creds : TransportCredentials)
  deriving DecidableEq

/-- `getSwapServerConn(address, insecure, tlsPath, interceptor)`: selects
the transport mode (insecure, pinned certificate, or default TLS, in that
precedence order), then dials.  `newClientTLSFromFile` stands for
`credentials.NewClientTLSFromFile` (the filesystem read and certificate
parse) and `dial` for `grpc.Dial`; both are environment parameters. -/
def getSwapServerConn {Conn : Type}
    (newClientTLSFromFile : String → Except String TransportCredentials)
    (dial : String → List DialOpt → Except String Conn)
    (address : String) (insecure : Bool) (tlsPath : String) :
    Option Conn × Option ClientError :=
  let opts : List DialOpt := [.withUnaryInterceptor]
  let selected : Except ClientError (List DialOpt) :=
    if insecure then .ok (opts ++ [.withInsecure])
    else if tlsPath ≠ "" then
      match newClientTLSFromFile tlsPath with
      | .error e => .error (.tlsLoadError e)
      | .ok creds => .ok (opts ++ [.withTransportCredentials creds])
    else .ok (opts ++ [.withTransportCredentials ⟨none⟩])
  match selected with
  | .error e => (none, some e)
  | .ok opts =>
    match dial address opts with
    | .error e => (none, some (.errorf ("unable to connect to RPC server: " ++ e)))
    | .ok conn => (some conn, none)

/-- `grpcSwapServerClient` (the constructed client value): the connection
it owns, possibly `nil`. -/
structure grpcSwapServerClient (Conn : Type) where
  conn : Option Conn

/-- `newSwapServerClient`: builds the server connection and wraps it; a
connection error fails construction. -/
def newSwapServerClient {Conn : Type}
    (newClientTLSFromFile : String → Except String TransportCredentials)
    (dial : String → List DialOpt → Except String Conn)
    (address : String) (insecure : Bool) (tlsPath : String) :
    Option (grpcSwapServerClient Conn) × Option ClientError :=
  let r := getSwapServerConn newClientTLSFromFile dial address insecure tlsPath
  match r.2 with
  | some err => (none, some err)
  | none => (some ⟨r.1⟩, none)

/-! ## Specification-side definitions and concrete test vectors -/

/-- A valid 33-byte compressed secp256k1 public key, stated from the
spec's description: a leading parity byte `0x02`/`0x03` followed by the
32-byte big-endian `x` coordinate of a curve point, the parity byte
selecting the parity of the `y` coordinate. -/
def IsValidCompressedPubKey (k : List ℕ) : Prop :=
  k.length = 33 ∧ (k.headI = 2 ∨ k.headI = 3) ∧
  bytesToNat (k.drop 1) < secpP ∧
  ∃ y, y < secpP ∧ (y * y) % secpP = (bytesToNat (k.drop 1) ^ 3 + curveB) % secpP ∧
    (y % 2 = 1 ↔ k.headI = 3)

/-- The compressed serialization of the secp256k1 generator point (a
valid compressed public key, used as a concrete test vector). -/
def genKeyBytes : List ℕ :=
  [2, 121, 190, 102, 126, 249, 220, 187, 172, 85, 160, 98, 149, 206, 135, 11, 7,
   2, 155, 252, 219, 45, 206, 40, 217, 89, 242, 129, 91, 22, 248, 23, 152]

/-- The `y` coordinate of the secp256k1 generator point (even). -/
def genY : ℕ :=
  32670510020758816978083085130507043184471273380659243275938904335757337482424

/-- A 33-byte string with a valid compressed-key parity byte whose `x`
coordinate (zero) is not on the curve: `0x02` followed by 32 zero
bytes. -/
def zeroKey33 : List ℕ := 2 :: List.replicate 32 0

/-- The hexadecimal encoding of `zeroKey33`. -/
def zeroDestHex : String :=
  "020000000000000000000000000000000000000000000000000000000000000000"

/-- The `x` coordinate of the secp256k1 generator point. -/
def genX : ℕ :=
  55066263022277343669578718895168534326250603453777594175500187360389116729240

/-- A concrete test server whose creation responses carry the invalid
key `zeroKey33`. -/
def zeroKeyStub : SwapServerClient where
  loopOutTerms := fun _ _ => .ok ⟨250000, 100000000⟩
  loopOutQuote := fun _ _ => .ok ⟨1000, 50, 144, zeroDestHex⟩
  loopInTerms := fun _ _ => .ok ⟨250000, 100000000⟩
  loopInQuote := fun _ _ => .ok ⟨50, 144⟩
  newLoopOutSwap := fun _ _ => .ok ⟨"swapinvoice", "prepayinvoice", zeroKey33, 600000⟩
  newLoopInSwap := fun _ _ => .ok ⟨zeroKey33, 600000⟩

/-- A concrete test server whose creation responses carry the valid
compressed key `genKeyBytes`. -/
def genStub : SwapServerClient where
  loopOutTerms := fun _ _ => .ok ⟨250000, 100000000⟩
  loopOutQuote := fun _ _ => .ok ⟨1000, 50, 144, zeroDestHex⟩
  loopInTerms := fun _ _ => .ok ⟨250000, 100000000⟩
  loopInQuote := fun _ _ => .ok ⟨50, 144⟩
  newLoopOutSwap := fun _ _ => .ok ⟨"swapinvoice", "prepayinvoice", genKeyBytes, 600000⟩
  newLoopInSwap := fun _ _ => .ok ⟨genKeyBytes, 600000⟩

/-- A concrete test server whose creation responses carry a 34-byte key:
a valid compressed key followed by one extra byte. -/
def gen34Stub : SwapServerClient where
  loopOutTerms := fun _ _ => .ok ⟨250000, 100000000⟩
  loopOutQuote := fun _ _ => .ok ⟨1000, 50, 144, zeroDestHex⟩
  loopInTerms := fun _ _ => .ok ⟨250000, 100000000⟩
  loopInQuote := fun _ _ => .ok ⟨50, 144⟩
  newLoopOutSwap := fun _ _ => .ok ⟨"swapinvoice", "prepayinvoice", genKeyBytes ++ [0], 600000⟩
  newLoopInSwap := fun _ _ => .ok ⟨genKeyBytes ++ [0], 600000⟩

/-! ## Correctness of `powMod` and the bridge to `ZMod` -/

theorem powMod_lt (m : ℕ) (hm : 0 < m) :
    ∀ fuel b e, powMod m fuel b e < m := by
  intro fuel
  induction fuel with
  | zero => intro b e; simpa [powMod] using Nat.mod_lt _ hm
  | succ n ih =>
    intro b e
    simp only [powMod]
    split
    · exact Nat.mod_lt _ hm
    · split
      · exact Nat.mod_lt _ hm
      · exact ih _ _

theorem powMod_eq (m : ℕ) (_hm : 0 < m) :
    ∀ fuel b e, e < 2 ^ fuel → powMod m fuel b e = b ^ e % m := by
  intro fuel
  induction fuel with
  | zero =>
    intro b e he
    interval_cases e
    simp [powMod]
  | succ n ih =>
    intro b e he
    simp only [powMod]
    rcases eq_or_ne e 0 with rfl | hne
    · simp
    · rw [if_neg hne]
      have hdiv : e / 2 < 2 ^ n := by
        rw [Nat.div_lt_iff_lt_mul (by norm_num)]
        calc e < 2 ^ (n + 1) := he
        _ = 2 ^ n * 2 := by ring
      have hr : powMod m n (b * b % m) (e / 2) = (b * b) ^ (e / 2) % m := by
        rw [ih _ _ hdiv, Nat.pow_mod, Nat.mod_mod_of_dvd _ dvd_rfl, ← Nat.pow_mod]
      have hbb : (b * b) ^ (e / 2) = b ^ (2 * (e / 2)) := by
        rw [two_mul, pow_add, mul_pow]
      rcases Nat.even_or_odd e with heven | hodd
      · have h2 : e % 2 = 0 := Nat.even_iff.mp heven
        rw [if_neg (by omega), hr, hbb]
        congr 1
        congr 1
        omega
      · have h2 : e % 2 = 1 := Nat.odd_iff.mp hodd
        rw [if_pos h2, hr, hbb, Nat.mod_mul_mod]
        congr 1
        rw [← pow_succ]
        congr 1
        omega

theorem zmod_natCast_mod_cancel (p x : ℕ) : ((x % p : ℕ) : ZMod p) = (x : ZMod p) :=
  ZMod.natCast_mod x p

/-- Casting `powMod` into `ZMod` recovers the abstract power. -/
theorem zmod_powMod (n : ℕ) (hn : 0 < n) (fuel a e : ℕ) (he : e < 2 ^ fuel) :
    ((powMod n fuel a e : ℕ) : ZMod n) = ((a : ℕ) : ZMod n) ^ e := by
  rw [powMod_eq n hn fuel a e he, zmod_natCast_mod_cancel, Nat.cast_pow]

theorem pow_eq_one_of_powMod (n : ℕ) (hn : 1 < n) (a e : ℕ) (fuel : ℕ)
    (he : e < 2 ^ fuel) (h : powMod n fuel a e = 1) :
    ((a : ℕ) : ZMod n) ^ e = 1 := by
  rw [← zmod_powMod n (by omega) fuel a e he, h, Nat.cast_one]

theorem pow_ne_one_of_powMod (n : ℕ) (hn : 1 < n) (a : ℕ) (e : ℕ) (fuel : ℕ)
    (he : e < 2 ^ fuel) (h : powMod n fuel a e ≠ 1) :
    ((a : ℕ) : ZMod n) ^ e ≠ 1 := by
  haveI : NeZero n := ⟨by omega⟩
  haveI : Fact (1 < n) := ⟨hn⟩
  intro hc
  apply h
  rw [← zmod_powMod n (by omega) fuel a e he] at hc
  have hv := congrArg ZMod.val hc
  rw [ZMod.val_natCast, ZMod.val_one] at hv
  rwa [Nat.mod_eq_of_lt (powMod_lt n (by omega) fuel a e)] at hv

/-! ## A Pratt/Lucas primality chain for the secp256k1 field prime -/

/-- `13331831` is prime (Lucas certificate, generator 13;
`13331830 = 2 * 5 * 971 * 1373`). -/
theorem prime_13331831 : Nat.Prime 13331831 := by
  have h971 : Nat.Prime 971 := by norm_num
  have h1373 : Nat.Prime 1373 := by norm_num
  refine lucas_primality _ ((13 : ℕ) : ZMod 13331831) ?_ ?_
  · exact pow_eq_one_of_powMod _ (by norm_num) _ _ 30 (by decide) (by decide)
  · intro q hq hdvd
    have hfac : (13331831 - 1) = 2 * (5 * (971 * 1373)) := by decide
    rw [hfac] at hdvd
    rcases (Nat.Prime.dvd_mul hq).mp hdvd with h | h
    · have hqe : q = 2 := (Nat.prime_dvd_prime_iff_eq hq (by norm_num)).mp h
      subst hqe
      exact pow_ne_one_of_powMod _ (by norm_num) _ _ 30 (by decide) (by decide)
    rcases (Nat.Prime.dvd_mul hq).mp h with h | h
    · have hqe : q = 5 := (Nat.prime_dvd_prime_iff_eq hq (by norm_num)).mp h
      subst hqe
      exact pow_ne_one_of_powMod _ (by norm_num) _ _ 30 (by decide) (by decide)
    rcases (Nat.Prime.dvd_mul hq).mp h with h | h
    · have hqe : q = 971 := (Nat.prime_dvd_prime_iff_eq hq h971).mp h
      subst hqe
      exact pow_ne_one_of_powMod _ (by norm_num) _ _ 30 (by decide) (by decide)
    · have hqe : q = 1373 := (Nat.prime_dvd_prime_iff_eq hq h1373).mp h
      subst hqe
      exact pow_ne_one_of_powMod _ (by norm_num) _ _ 30 (by decide) (by decide)

/-- `107590001` is prime (Lucas certificate, generator 3;
`107590000 = 2^4 * 5^4 * 7 * 29 * 53`). -/
theorem prime_107590001 : Nat.Prime 107590001 := by
  refine lucas_primality _ ((3 : ℕ) : ZMod 107590001) ?_ ?_
  · exact pow_eq_one_of_powMod _ (by norm_num) _ _ 30 (by decide) (by decide)
  · intro q hq hdvd
    have hfac : (107590001 - 1) = 2 ^ 4 * (5 ^ 4 * (7 * (29 * 53))) := by decide
    rw [hfac] at hdvd
    rcases (Nat.Prime.dvd_mul hq).mp hdvd with h | h
    · have hqe : q = 2 :=
        (Nat.prime_dvd_prime_iff_eq hq (by norm_num)).mp (hq.dvd_of_dvd_pow h)
      subst hqe
      exact pow_ne_one_of_powMod _ (by norm_num) _ _ 30 (by decide) (by decide)
    rcases (Nat.Prime.dvd_mul hq).mp h with h | h
    · have hqe : q = 5 :=
        (Nat.prime_dvd_prime_iff_eq hq (by norm_num)).mp (hq.dvd_of_dvd_pow h)
      subst hqe
      exact pow_ne_one_of_powMod _ (by norm_num) _ _ 30 (by decide) (by decide)
    rcases (Nat.Prime.dvd_mul hq).mp h with h | h
    · have hqe : q = 7 := (Nat.prime_dvd_prime_iff_eq hq (by norm_num)).mp h
      subst hqe
      exact pow_ne_one_of_powMod _ (by norm_num) _ _ 30 (by decide) (by decide)
    rcases (Nat.Prime.dvd_mul hq).mp h with h | h
    · have hqe : q = 29 := (Nat.prime_dvd_prime_iff_eq hq (by norm_num)).mp h
      subst hqe
      exact pow_ne_one_of_powMod _ (by norm_num) _ _ 30 (by decide) (by decide)
    · have hqe : q = 53 := (Nat.prime_dvd_prime_iff_eq hq (by norm_num)).mp h
      subst hqe
      exact pow_ne_one_of_powMod _ (by norm_num) _ _ 30 (by decide) (by decide)

/-- `7240687` is prime (Lucas certificate, generator 3;
`7240686 = 2 * 3 * 1206781`). -/
theorem prime_7240687 : Nat.Prime 7240687 := by
  have h1206781 : Nat.Prime 1206781 := by norm_num
  refine lucas_primality _ ((3 : ℕ) : ZMod 7240687) ?_ ?_
  · exact pow_eq_one_of_powMod _ (by norm_num) _ _ 30 (by decide) (by decide)
  · intro q hq hdvd
    have hfac : (7240687 - 1) = 2 * (3 * 1206781) := by decide
    rw [hfac] at hdvd
    rcases (Nat.Prime.dvd_mul hq).mp hdvd with h | h
    · have hqe : q = 2 := (Nat.prime_dvd_prime_iff_eq hq (by norm_num)).mp h
      subst hqe
      exact pow_ne_one_of_powMod _ (by norm_num) _ _ 30 (by decide) (by decide)
    rcases (Nat.Prime.dvd_mul hq).mp h with h | h
    · have hqe : q = 3 := (Nat.prime_dvd_prime_iff_eq hq (by norm_num)).mp h
      subst hqe
      exact pow_ne_one_of_powMod _ (by norm_num) _ _ 30 (by decide) (by decide)
    · have hqe : q = 1206781 := (Nat.prime_dvd_prime_iff_eq hq h1206781).mp h
      subst hqe
      exact pow_ne_one_of_powMod _ (by norm_num) _ _ 30 (by decide) (by decide)

/-- `173378833005251801` is prime (Lucas certificate, generator 6;
`K18 - 1 = 2^3 * 5^2 * 2621 * 24809 * 13331831`). -/
theorem prime_K18 : Nat.Prime 173378833005251801 := by
  have h2621 : Nat.Prime 2621 := by norm_num
  have h24809 : Nat.Prime 24809 := by norm_num
  refine lucas_primality _ ((6 : ℕ) : ZMod 173378833005251801) ?_ ?_
  · exact pow_eq_one_of_powMod _ (by norm_num) _ _ 60 (by decide) (by decide)
  · intro q hq hdvd
    have hfac : (173378833005251801 - 1) = 2 ^ 3 * (5 ^ 2 * (2621 * (24809 * 13331831))) := by
      decide
    rw [hfac] at hdvd
    rcases (Nat.Prime.dvd_mul hq).mp hdvd with h | h
    · have hq2 : q = 2 :=
        (Nat.prime_dvd_prime_iff_eq hq (by norm_num)).mp (hq.dvd_of_dvd_pow h)
      subst hq2
      exact pow_ne_one_of_powMod _ (by norm_num) _ _ 60 (by decide) (by decide)
    rcases (Nat.Prime.dvd_mul hq).mp h with h | h
    · have hq5 : q = 5 :=
        (Nat.prime_dvd_prime_iff_eq hq (by norm_num)).mp (hq.dvd_of_dvd_pow h)
      subst hq5
      exact pow_ne_one_of_powMod _ (by norm_num) _ _ 60 (by decide) (by decide)
    rcases (Nat.Prime.dvd_mul hq).mp h with h | h
    · have hqe : q = 2621 := (Nat.prime_dvd_prime_iff_eq hq h2621).mp h
      subst hqe
      exact pow_ne_one_of_powMod _ (by norm_num) _ _ 60 (by decide) (by decide)
    rcases (Nat.Prime.dvd_mul hq).mp h with h | h
    · have hqe : q = 24809 := (Nat.prime_dvd_prime_iff_eq hq h24809).mp h
      subst hqe
      exact pow_ne_one_of_powMod _ (by norm_num) _ _ 60 (by decide) (by decide)
    · have hqe : q = 13331831 := (Nat.prime_dvd_prime_iff_eq hq prime_13331831).mp h
      subst hqe
      exact pow_ne_one_of_powMod _ (by norm_num) _ _ 60 (by decide) (by decide)

/-- `22149492674086928081353` is prime (Lucas certificate, generator 5;
`Q22 - 1 = 2^3 * 3 * 5323 * 173378833005251801`). -/
theorem prime_Q22 : Nat.Prime 22149492674086928081353 := by
  have h5323 : Nat.Prime 5323 := by norm_num
  refine lucas_primality _ ((5 : ℕ) : ZMod 22149492674086928081353) ?_ ?_
  · exact pow_eq_one_of_powMod _ (by norm_num) _ _ 80 (by decide) (by decide)
  · intro q hq hdvd
    have hfac : (22149492674086928081353 - 1) =
        2 ^ 3 * (3 * (5323 * 173378833005251801)) := by decide
    rw [hfac] at hdvd
    rcases (Nat.Prime.dvd_mul hq).mp hdvd with h | h
    · have hqe : q = 2 :=
        (Nat.prime_dvd_prime_iff_eq hq (by norm_num)).mp (hq.dvd_of_dvd_pow h)
      subst hqe
      exact pow_ne_one_of_powMod _ (by norm_num) _ _ 80 (by decide) (by decide)
    rcases (Nat.Prime.dvd_mul hq).mp h with h | h
    · have hqe : q = 3 := (Nat.prime_dvd_prime_iff_eq hq (by norm_num)).mp h
      subst hqe
      exact pow_ne_one_of_powMod _ (by norm_num) _ _ 80 (by decide) (by decide)
    rcases (Nat.Prime.dvd_mul hq).mp h with h | h
    · have hqe : q = 5323 := (Nat.prime_dvd_prime_iff_eq hq h5323).mp h
      subst hqe
      exact pow_ne_one_of_powMod _ (by norm_num) _ _ 80 (by decide) (by decide)
    · have hqe : q = 173378833005251801 := (Nat.prime_dvd_prime_iff_eq hq prime_K18).mp h
      subst hqe
      exact pow_ne_one_of_powMod _ (by norm_num) _ _ 80 (by decide) (by decide)

/-- `132896956044521568488119` is prime (Lucas certificate, generator 6;
`F24 - 1 = 2 * 3 * 22149492674086928081353`). -/
theorem prime_F24 : Nat.Prime 132896956044521568488119 := by
  refine lucas_primality _ ((6 : ℕ) : ZMod 132896956044521568488119) ?_ ?_
  · exact pow_eq_one_of_powMod _ (by norm_num) _ _ 80 (by decide) (by decide)
  · intro q hq hdvd
    have hfac : (132896956044521568488119 - 1) = 2 * (3 * 22149492674086928081353) := by
      decide
    rw [hfac] at hdvd
    rcases (Nat.Prime.dvd_mul hq).mp hdvd with h | h
    · have hqe : q = 2 := (Nat.prime_dvd_prime_iff_eq hq (by norm_num)).mp h
      subst hqe
      exact pow_ne_one_of_powMod _ (by norm_num) _ _ 80 (by decide) (by decide)
    rcases (Nat.Prime.dvd_mul hq).mp h with h | h
    · have hqe : q = 3 := (Nat.prime_dvd_prime_iff_eq hq (by norm_num)).mp h
      subst hqe
      exact pow_ne_one_of_powMod _ (by norm_num) _ _ 80 (by decide) (by decide)
    · have hqe : q = 22149492674086928081353 :=
        (Nat.prime_dvd_prime_iff_eq hq prime_Q22).mp h
      subst hqe
      exact pow_ne_one_of_powMod _ (by norm_num) _ _ 80 (by decide) (by decide)

/-- `255515944373312847190720520512484175977` is prime (Lucas
certificate, generator 3; `F39 - 1 = 2^3 * 7^2 * 11 * 1627 * 2657 * 4423
* 41201 * 96557 * 7240687 * 107590001`). -/
theorem prime_F39 : Nat.Prime 255515944373312847190720520512484175977 := by
  have h1627 : Nat.Prime 1627 := by norm_num
  have h2657 : Nat.Prime 2657 := by norm_num
  have h4423 : Nat.Prime 4423 := by norm_num
  have h41201 : Nat.Prime 41201 := by norm_num
  have h96557 : Nat.Prime 96557 := by norm_num
  refine lucas_primality _ ((3 : ℕ) : ZMod 255515944373312847190720520512484175977) ?_ ?_
  · exact pow_eq_one_of_powMod _ (by norm_num) _ _ 130 (by decide) (by decide)
  · intro q hq hdvd
    have hfac : (255515944373312847190720520512484175977 - 1) =
        2 ^ 3 * (7 ^ 2 * (11 * (1627 * (2657 * (4423 * (41201 * (96557 *
          (7240687 * 107590001)))))))) := by decide
    rw [hfac] at hdvd
    rcases (Nat.Prime.dvd_mul hq).mp hdvd with h | h
    · have hqe : q = 2 :=
        (Nat.prime_dvd_prime_iff_eq hq (by norm_num)).mp (hq.dvd_of_dvd_pow h)
      subst hqe
      exact pow_ne_one_of_powMod _ (by norm_num) _ _ 130 (by decide) (by decide)
    rcases (Nat.Prime.dvd_mul hq).mp h with h | h
    · have hqe : q = 7 :=
        (Nat.prime_dvd_prime_iff_eq hq (by norm_num)).mp (hq.dvd_of_dvd_pow h)
      subst hqe
      exact pow_ne_one_of_powMod _ (by norm_num) _ _ 130 (by decide) (by decide)
    rcases (Nat.Prime.dvd_mul hq).mp h with h | h
    · have hqe : q = 11 := (Nat.prime_dvd_prime_iff_eq hq (by norm_num)).mp h
      subst hqe
      exact pow_ne_one_of_powMod _ (by norm_num) _ _ 130 (by decide) (by decide)
    rcases (Nat.Prime.dvd_mul hq).mp h with h | h
    · have hqe : q = 1627 := (Nat.prime_dvd_prime_iff_eq hq h1627).mp h
      subst hqe
      exact pow_ne_one_of_powMod _ (by norm_num) _ _ 130 (by decide) (by decide)
    rcases (Nat.Prime.dvd_mul hq).mp h with h | h
    · have hqe : q = 2657 := (Nat.prime_dvd_prime_iff_eq hq h2657).mp h
      subst hqe
      exact pow_ne_one_of_powMod _ (by norm_num) _ _ 130 (by decide) (by decide)
    rcases (Nat.Prime.dvd_mul hq).mp h with h | h
    · have hqe : q = 4423 := (Nat.prime_dvd_prime_iff_eq hq h4423).mp h
      subst hqe
      exact pow_ne_one_of_powMod _ (by norm_num) _ _ 130 (by decide) (by decide)
    rcases (Nat.Prime.dvd_mul hq).mp h with h | h
    · have hqe : q = 41201 := (Nat.prime_dvd_prime_iff_eq hq h41201).mp h
      subst hqe
      exact pow_ne_one_of_powMod _ (by norm_num) _ _ 130 (by decide) (by decide)
    rcases (Nat.Prime.dvd_mul hq).mp h with h | h
    · have hqe : q = 96557 := (Nat.prime_dvd_prime_iff_eq hq h96557).mp h
      subst hqe
      exact pow_ne_one_of_powMod _ (by norm_num) _ _ 130 (by decide) (by decide)
    rcases (Nat.Prime.dvd_mul hq).mp h with h | h
    · have hqe : q = 7240687 := (Nat.prime_dvd_prime_iff_eq hq prime_7240687).mp h
      subst hqe
      exact pow_ne_one_of_powMod _ (by norm_num) _ _ 130 (by decide) (by decide)
    · have hqe : q = 107590001 := (Nat.prime_dvd_prime_iff_eq hq prime_107590001).mp h
      subst hqe
      exact pow_ne_one_of_powMod _ (by norm_num) _ _ 130 (by decide) (by decide)

/-- `205115282021455665897114700593932402728804164701536103180137503955397371`
is prime (Lucas certificate, generator 10; `P1 - 1 = 2 * 3 * 5 * 29^2 *
31 * 7723 * F24 * F39`). -/
theorem prime_P1 :
    Nat.Prime 205115282021455665897114700593932402728804164701536103180137503955397371 := by
  have h7723 : Nat.Prime 7723 := by norm_num
  refine lucas_primality _
    ((10 : ℕ) : ZMod 205115282021455665897114700593932402728804164701536103180137503955397371)
    ?_ ?_
  · exact pow_eq_one_of_powMod _ (by norm_num) _ _ 240 (by decide) (by decide)
  · intro q hq hdvd
    have hfac :
        (205115282021455665897114700593932402728804164701536103180137503955397371 - 1) =
        2 * (3 * (5 * (29 ^ 2 * (31 * (7723 * (132896956044521568488119 *
          255515944373312847190720520512484175977)))))) := by decide
    rw [hfac] at hdvd
    rcases (Nat.Prime.dvd_mul hq).mp hdvd with h | h
    · have hqe : q = 2 := (Nat.prime_dvd_prime_iff_eq hq (by norm_num)).mp h
      subst hqe
      exact pow_ne_one_of_powMod _ (by norm_num) _ _ 240 (by decide) (by decide)
    rcases (Nat.Prime.dvd_mul hq).mp h with h | h
    · have hqe : q = 3 := (Nat.prime_dvd_prime_iff_eq hq (by norm_num)).mp h
      subst hqe
      exact pow_ne_one_of_powMod _ (by norm_num) _ _ 240 (by decide) (by decide)
    rcases (Nat.Prime.dvd_mul hq).mp h with h | h
    · have hqe : q = 5 := (Nat.prime_dvd_prime_iff_eq hq (by norm_num)).mp h
      subst hqe
      exact pow_ne_one_of_powMod _ (by norm_num) _ _ 240 (by decide) (by decide)
    rcases (Nat.Prime.dvd_mul hq).mp h with h | h
    · have hqe : q = 29 :=
        (Nat.prime_dvd_prime_iff_eq hq (by norm_num)).mp (hq.dvd_of_dvd_pow h)
      subst hqe
      exact pow_ne_one_of_powMod _ (by norm_num) _ _ 240 (by decide) (by decide)
    rcases (Nat.Prime.dvd_mul hq).mp h with h | h
    · have hqe : q = 31 := (Nat.prime_dvd_prime_iff_eq hq (by norm_num)).mp h
      subst hqe
      exact pow_ne_one_of_powMod _ (by norm_num) _ _ 240 (by decide) (by decide)
    rcases (Nat.Prime.dvd_mul hq).mp h with h | h
    · have hqe : q = 7723 := (Nat.prime_dvd_prime_iff_eq hq h7723).mp h
      subst hqe
      exact pow_ne_one_of_powMod _ (by norm_num) _ _ 240 (by decide) (by decide)
    rcases (Nat.Prime.dvd_mul hq).mp h with h | h
    · have hqe : q = 132896956044521568488119 :=
        (Nat.prime_dvd_prime_iff_eq hq prime_F24).mp h
      subst hqe
      exact pow_ne_one_of_powMod _ (by norm_num) _ _ 240 (by decide) (by decide)
    · have hqe : q = 255515944373312847190720520512484175977 :=
        (Nat.prime_dvd_prime_iff_eq hq prime_F39).mp h
      subst hqe
      exact pow_ne_one_of_powMod _ (by norm_num) _ _ 240 (by decide) (by decide)

/-- The secp256k1 field prime is prime (Lucas certificate, generator 3;
`P - 1 = 2 * 3 * 7 * 13441 * P1`). -/
theorem secpP_prime : Nat.Prime secpP := by
  have h13441 : Nat.Prime 13441 := by norm_num
  have hP : secpP =
      115792089237316195423570985008687907853269984665640564039457584007908834671663 := by
    decide
  rw [hP]
  refine lucas_primality _
    ((3 : ℕ) :
      ZMod 115792089237316195423570985008687907853269984665640564039457584007908834671663)
    ?_ ?_
  · exact pow_eq_one_of_powMod _ (by norm_num) _ _ 260 (by decide) (by decide)
  · intro q hq hdvd
    have hfac :
        (115792089237316195423570985008687907853269984665640564039457584007908834671663
          - 1) =
        2 * (3 * (7 * (13441 *
          205115282021455665897114700593932402728804164701536103180137503955397371))) := by
      decide
    rw [hfac] at hdvd
    rcases (Nat.Prime.dvd_mul hq).mp hdvd with h | h
    · have hqe : q = 2 := (Nat.prime_dvd_prime_iff_eq hq (by norm_num)).mp h
      subst hqe
      exact pow_ne_one_of_powMod _ (by norm_num) _ _ 260 (by decide) (by decide)
    rcases (Nat.Prime.dvd_mul hq).mp h with h | h
    · have hqe : q = 3 := (Nat.prime_dvd_prime_iff_eq hq (by norm_num)).mp h
      subst hqe
      exact pow_ne_one_of_powMod _ (by norm_num) _ _ 260 (by decide) (by decide)
    rcases (Nat.Prime.dvd_mul hq).mp h with h | h
    · have hqe : q = 7 := (Nat.prime_dvd_prime_iff_eq hq (by norm_num)).mp h
      subst hqe
      exact pow_ne_one_of_powMod _ (by norm_num) _ _ 260 (by decide) (by decide)
    rcases (Nat.Prime.dvd_mul hq).mp h with h | h
    · have hqe : q = 13441 := (Nat.prime_dvd_prime_iff_eq hq h13441).mp h
      subst hqe
      exact pow_ne_one_of_powMod _ (by norm_num) _ _ 260 (by decide) (by decide)
    · have hqe :
          q = 205115282021455665897114700593932402728804164701536103180137503955397371 :=
        (Nat.prime_dvd_prime_iff_eq hq prime_P1).mp h
      subst hqe
      exact pow_ne_one_of_powMod _ (by norm_num) _ _ 260 (by decide) (by decide)

/-! ## Square roots modulo the secp256k1 prime -/

theorem secpP_pos : 0 < secpP := by decide

theorem qPlus1Div4_lt : qPlus1Div4 < 2 ^ 260 := by decide

theorem qPlus1Div4_ne_zero : qPlus1Div4 ≠ 0 := by decide

theorem four_mul_qPlus1Div4 : 4 * qPlus1Div4 = secpP + 1 := by decide

theorem secpP_odd : secpP % 2 = 1 := by decide

/-- In `ZMod secpP`, when `a` has a square root, `a ^ ((P+1)/4)` squares
back to `a` (the prime is `3 mod 4`). -/
theorem zmod_sqrt_sq (y : ZMod secpP) :
    (y * y) ^ qPlus1Div4 * (y * y) ^ qPlus1Div4 = y * y := by
  haveI : Fact (Nat.Prime secpP) := ⟨secpP_prime⟩
  rcases eq_or_ne y 0 with rfl | hy
  · simp [zero_pow qPlus1Div4_ne_zero]
  · have hfe : y ^ (secpP - 1) = 1 := ZMod.pow_card_sub_one_eq_one hy
    have h1 : y * y = y ^ 2 := (pow_two y).symm
    rw [h1, ← pow_mul, ← pow_add]
    have he : 2 * qPlus1Div4 + 2 * qPlus1Div4 = (secpP - 1) + 2 := by
      have h4 := four_mul_qPlus1Div4
      have h2 := secpP_prime.two_le
      omega
    rw [he, pow_add, hfe, one_mul]

/-- The `ℕ`-level square-root correctness used by `decompressPoint`:
when `a` is a quadratic residue mod `P`, the candidate
`a ^ ((P+1)/4) % P` squares back to `a` mod `P`. -/
theorem sqrtCand_sq_mod (a y : ℕ) (hyy : (y * y) % secpP = a % secpP) :
    ((a ^ qPlus1Div4 % secpP) * (a ^ qPlus1Div4 % secpP)) % secpP = a % secpP := by
  haveI : Fact (Nat.Prime secpP) := ⟨secpP_prime⟩
  have hz : ((y : ℕ) : ZMod secpP) * (y : ℕ) = ((a : ℕ) : ZMod secpP) := by
    have h1 := congrArg (fun t : ℕ => (t : ZMod secpP)) hyy
    simpa [zmod_natCast_mod_cancel, Nat.cast_mul] using h1
  have h2 := zmod_sqrt_sq ((y : ℕ) : ZMod secpP)
  rw [hz] at h2
  have h3 : (((a ^ qPlus1Div4 % secpP) * (a ^ qPlus1Div4 % secpP) : ℕ) : ZMod secpP)
      = ((a : ℕ) : ZMod secpP) := by
    push_cast [zmod_natCast_mod_cancel]
    exact h2
  have h4 := congrArg ZMod.val h3
  rwa [ZMod.val_natCast, ZMod.val_natCast] at h4

/-- Squaring is invariant under negation mod `P`. -/
theorem sub_sq_mod (c : ℕ) (hc : c ≤ secpP) :
    ((secpP - c) * (secpP - c)) % secpP = (c * c) % secpP := by
  have h1 : (((secpP - c) : ℕ) : ZMod secpP) = -(c : ZMod secpP) := by
    rw [Nat.cast_sub hc, ZMod.natCast_self, zero_sub]
  have h2 : (((secpP - c) * (secpP - c) : ℕ) : ZMod secpP) = ((c * c : ℕ) : ZMod secpP) := by
    rw [Nat.cast_mul, Nat.cast_mul, h1]
    ring
  have h3 := congrArg ZMod.val h2
  rwa [ZMod.val_natCast, ZMod.val_natCast] at h3

/-- Mod a prime, a square root of zero is zero. -/
theorem eq_zero_of_sq_mod_zero (y : ℕ) (hy : y < secpP) (h : (y * y) % secpP = 0) :
    y = 0 := by
  haveI : Fact (Nat.Prime secpP) := ⟨secpP_prime⟩
  haveI : NeZero secpP := ⟨by decide⟩
  have h1 : ((y * y : ℕ) : ZMod secpP) = 0 := by
    rw [← zmod_natCast_mod_cancel secpP (y * y), h, Nat.cast_zero]
  rw [Nat.cast_mul] at h1
  have h2 : (y : ZMod secpP) = 0 := by
    rcases mul_eq_zero.mp h1 with h' | h' <;> exact h'
  have h3 := congrArg ZMod.val h2
  rw [ZMod.val_natCast, ZMod.val_zero] at h3
  have h4 : y % secpP = y := Nat.mod_eq_of_lt hy
  omega

/-! ## Characterizing `parsePubKey` on 33-byte strings -/

/-- `decompressPoint` keeps the candidate root when its parity already
matches. -/
theorem decompressPoint_eval_keep (x : ℕ) (b : Bool)
    (h : isOddNat (powMod secpP 260 (x * x * x + curveB) qPlus1Div4) = b) :
    decompressPoint x b = .ok (powMod secpP 260 (x * x * x + curveB) qPlus1Div4) := by
  simp only [decompressPoint]
  have hinner :
      (if b ≠ isOddNat (powMod secpP 260 (x * x * x + curveB) qPlus1Div4) then
        secpP - powMod secpP 260 (x * x * x + curveB) qPlus1Div4
      else powMod secpP 260 (x * x * x + curveB) qPlus1Div4)
      = powMod secpP 260 (x * x * x + curveB) qPlus1Div4 := if_neg (by simp [h])
  rw [hinner, if_neg (by simp [h])]

/-- `decompressPoint` negates the candidate root mod `P` when its parity
does not match and the negation's parity does. -/
theorem decompressPoint_eval_neg (x : ℕ) (b : Bool)
    (h1 : isOddNat (powMod secpP 260 (x * x * x + curveB) qPlus1Div4) ≠ b)
    (h2 : isOddNat (secpP - powMod secpP 260 (x * x * x + curveB) qPlus1Div4) = b) :
    decompressPoint x b =
      .ok (secpP - powMod secpP 260 (x * x * x + curveB) qPlus1Div4) := by
  simp only [decompressPoint]
  have hinner :
      (if b ≠ isOddNat (powMod secpP 260 (x * x * x + curveB) qPlus1Div4) then
        secpP - powMod secpP 260 (x * x * x + curveB) qPlus1Div4
      else powMod secpP 260 (x * x * x + curveB) qPlus1Div4)
      = secpP - powMod secpP 260 (x * x * x + curveB) qPlus1Div4 :=
    if_pos (fun hh => h1 hh.symm)
  rw [hinner, if_neg (by simp [h2])]

theorem decompressPoint_ok (x : ℕ) (b : Bool) (y : ℕ)
    (h : decompressPoint x b = .ok y) :
    isOddNat y = b ∧
    (y = powMod secpP 260 (x * x * x + curveB) qPlus1Div4 ∨
     y = secpP - powMod secpP 260 (x * x * x + curveB) qPlus1Div4) := by
  simp only [decompressPoint] at h
  set c := powMod secpP 260 (x * x * x + curveB) qPlus1Div4 with hc
  by_cases h1 : b ≠ isOddNat c
  · rw [if_pos h1] at h
    by_cases h2 : b ≠ isOddNat (secpP - c)
    · rw [if_pos h2] at h
      cases h
    · rw [if_neg h2] at h
      simp only [Except.ok.injEq] at h
      subst h
      exact ⟨(not_ne_iff.mp h2).symm, Or.inr rfl⟩
  · rw [if_neg h1, if_neg h1] at h
    simp only [Except.ok.injEq] at h
    subst h
    exact ⟨(not_ne_iff.mp h1).symm, Or.inl rfl⟩

theorem decompressPoint_complete (x : ℕ) (b : Bool)
    (hex : ∃ y, y < secpP ∧ (y * y) % secpP = (x * x * x + curveB) % secpP ∧
      (y % 2 = 1 ↔ b = true)) :
    ∃ y, decompressPoint x b = .ok y ∧ y < secpP ∧
      (y * y) % secpP = (x * x * x + curveB) % secpP ∧ isOddNat y = b := by
  obtain ⟨y0, hy0, hyy, hpar⟩ := hex
  have hc : powMod secpP 260 (x * x * x + curveB) qPlus1Div4
      = (x * x * x + curveB) ^ qPlus1Div4 % secpP :=
    powMod_eq secpP secpP_pos 260 _ qPlus1Div4 qPlus1Div4_lt
  set c := powMod secpP 260 (x * x * x + curveB) qPlus1Div4 with hcdef
  have hclt : c < secpP := hc ▸ Nat.mod_lt _ secpP_pos
  have hcsq : (c * c) % secpP = (x * x * x + curveB) % secpP := by
    rw [hc]
    exact sqrtCand_sq_mod _ y0 hyy
  by_cases hcb : isOddNat c = b
  · exact ⟨c, decompressPoint_eval_keep x b hcb, hclt, hcsq, hcb⟩
  · rcases Nat.eq_zero_or_pos c with hc0 | hcpos
    · exfalso
      have ha0 : (x * x * x + curveB) % secpP = 0 := by
        rw [← hcsq, hc0]
        simp
      have hyz : y0 = 0 := eq_zero_of_sq_mod_zero y0 hy0 (by rw [hyy, ha0])
      have hbf : b = false := by
        cases b
        · rfl
        · exact absurd (hpar.mpr rfl) (by omega)
      apply hcb
      rw [hc0, hbf]
      rfl
    · have hparity : isOddNat (secpP - c) = b := by
        have hodd := secpP_odd
        rcases Nat.mod_two_eq_zero_or_one c with hc2 | hc2
        · have hfc : isOddNat c = false := by
            unfold isOddNat
            simp [hc2]
          have hb : b = true := by
            cases b
            · exact absurd hfc hcb
            · rfl
          subst hb
          unfold isOddNat
          simp only [beq_iff_eq]
          omega
        · have hfc : isOddNat c = true := by
            unfold isOddNat
            simp [hc2]
          have hb : b = false := by
            cases b
            · rfl
            · exact absurd hfc hcb
          subst hb
          unfold isOddNat
          rw [beq_eq_false_iff_ne]
          omega
      refine ⟨secpP - c, decompressPoint_eval_neg x b hcb hparity, by omega, ?_, hparity⟩
      rw [sub_sq_mod c (le_of_lt hclt)]
      exact hcsq

theorem checkPubKey_ok_iff (x y : ℕ) :
    isOk (checkPubKey x y) = true ↔
      x < secpP ∧ y < secpP ∧ (y * y) % secpP = (x * x * x + curveB) % secpP := by
  unfold checkPubKey
  split_ifs with h1 h2 h3
  · simp only [isOk]
    constructor
    · intro h; cases h
    · rintro ⟨hx, -, -⟩; omega
  · simp only [isOk]
    constructor
    · intro h; cases h
    · rintro ⟨-, hy, -⟩; omega
  · simp only [isOk]
    constructor
    · intro h; cases h
    · rintro ⟨-, -, hcurve⟩
      unfold isOnCurve at h3
      rw [beq_eq_false_iff_ne] at h3
      exact absurd hcurve h3
  · simp only [isOk, true_iff]
    refine ⟨by omega, by omega, ?_⟩
    have h4 : isOnCurve x y = true := by
      cases hB : isOnCurve x y
      · exact absurd hB h3
      · rfl
    unfold isOnCurve at h4
    exact beq_iff_eq.mp h4

theorem land254_eq_two_iff : ∀ g : ℕ, g < 256 → (g &&& 254 = 2 ↔ (g = 2 ∨ g = 3)) := by
  decide

theorem isOddNat_eq_iff (y : ℕ) (b : Bool) :
    isOddNat y = b ↔ (y % 2 = 1 ↔ b = true) := by
  unfold isOddNat
  cases b
  · rw [beq_eq_false_iff_ne]
    constructor
    · intro h
      exact ⟨fun hy => absurd hy h, fun hh => by cases hh⟩
    · intro h hy
      exact absurd (h.mp hy) (by simp)
  · rw [beq_iff_eq]
    constructor
    · intro h
      exact ⟨fun _ => rfl, fun _ => h⟩
    · intro h
      exact h.mpr rfl

theorem parity_cases (f y : ℕ) (hm : f = 2 ∨ f = 3) :
    (y % 2 = 1 ↔ f = 3) ↔ isOddNat y = isOddNat f := by
  rw [isOddNat_eq_iff y (isOddNat f)]
  rcases hm with rfl | rfl
  · rw [show isOddNat 2 = false from rfl]
    constructor
    · intro h
      exact ⟨fun hy => absurd (h.mp hy) (by norm_num), fun hh => by cases hh⟩
    · intro h
      exact ⟨fun hy => absurd (h.mp hy) (by simp), fun hh => absurd hh (by norm_num)⟩
  · rw [show isOddNat 3 = true from rfl]
    constructor
    · intro h
      exact ⟨fun _ => rfl, fun _ => h.mpr rfl⟩
    · intro h
      exact ⟨fun _ => rfl, fun _ => h.mpr rfl⟩

/-- `parsePubKey` on a 33-byte string accepts exactly the valid
compressed secp256k1 public keys. -/
theorem parsePubKey_33_iff (k : List ℕ) (hlen : k.length = 33)
    (hb : ∀ b ∈ k, b < 256) :
    isOk (parsePubKey k) = true ↔ IsValidCompressedPubKey k := by
  cases k with
  | nil => simp at hlen
  | cons f rest =>
    have hL : (f :: rest).length = 33 := hlen
    have hrest : rest.length = 32 := by simpa using hlen
    have hf256 : f < 256 := hb f (List.mem_cons_self f rest)
    have htake : rest.take 32 = rest := List.take_of_length_le (by omega)
    simp only [parsePubKey, IsValidCompressedPubKey, List.headI_cons,
      List.drop_succ_cons, List.drop_zero]
    rw [hL]
    rw [if_neg (by norm_num), if_neg (by norm_num), if_pos rfl, htake]
    simp only [pubkeyCompressed]
    by_cases hmagic : f = 2 ∨ f = 3
    · have hland : f &&& 254 = 2 := (land254_eq_two_iff f hf256).mpr hmagic
      rw [if_neg (by simp [hland])]
      have hpow : bytesToNat rest ^ 3 + curveB
          = bytesToNat rest * bytesToNat rest * bytesToNat rest + curveB := by
        ring
      cases hdec : decompressPoint (bytesToNat rest) (isOddNat f) with
      | error e =>
        simp only [isOk]
        constructor
        · intro h
          cases h
        · rintro ⟨-, -, hx, y', hy', hyy', hpar'⟩
          obtain ⟨y'', hok, -, -, -⟩ :=
            decompressPoint_complete (bytesToNat rest) (isOddNat f)
              ⟨y', hy', by rw [← hpow]; exact hyy',
                (isOddNat_eq_iff y' (isOddNat f)).mp ((parity_cases f y' hmagic).mp hpar')⟩
          rw [hdec] at hok
          cases hok
      | ok y =>
        rw [checkPubKey_ok_iff]
        obtain ⟨hpar, -⟩ := decompressPoint_ok _ _ _ hdec
        constructor
        · rintro ⟨hx, hy, hcurve⟩
          exact ⟨by trivial, hmagic, hx, y, hy, by rw [hpow]; exact hcurve,
            (parity_cases f y hmagic).mpr hpar⟩
        · rintro ⟨-, -, hx, y', hy', hyy', hpar'⟩
          obtain ⟨y'', hok, hy''lt, hyy'', -⟩ :=
            decompressPoint_complete (bytesToNat rest) (isOddNat f)
              ⟨y', hy', by rw [← hpow]; exact hyy',
                (isOddNat_eq_iff y' (isOddNat f)).mp ((parity_cases f y' hmagic).mp hpar')⟩
          rw [hdec] at hok
          injection hok with hok
          subst hok
          exact ⟨hx, hy''lt, hyy''⟩
    · have hland : f &&& 254 ≠ 2 := fun hh =>
        hmagic ((land254_eq_two_iff f hf256).mp hh)
      rw [if_pos hland]
      simp only [isOk]
      constructor
      · intro h
        cases h
      · rintro ⟨-, hhead, -⟩
        exact (hmagic hhead).elim

/-! ## `copy` into a 33-byte buffer -/

theorem copyTo33_length (s : List ℕ) : (copyTo33 s).length = 33 := by
  simp only [copyTo33, List.length_append, List.length_take, List.length_replicate]
  omega

theorem copyTo33_of_length33 (s : List ℕ) (h : s.length = 33) : copyTo33 s = s := by
  simp only [copyTo33, h]
  rw [List.take_of_length_le (le_of_eq h)]
  simp

theorem copyTo33_bounded (s : List ℕ) (hb : ∀ b ∈ s, b < 256) :
    ∀ b ∈ copyTo33 s, b < 256 := by
  intro b hbm
  rcases List.mem_append.mp hbm with h | h
  · exact hb b (List.take_subset _ _ h)
  · rw [List.eq_of_mem_replicate h]
    norm_num

/-! ## The claims -/

/-- C2: whenever the creation RPC itself succeeds but the returned key
fails secp256k1 parsing (after the copy into the 33-byte buffer),
`NewLoopOutSwap` and `NewLoopInSwap` return no response value and an
`InvalidServerKeyError` (the `fmt.Errorf` wrapping of the parse error). -/
theorem claim2_invalid_server_key_error (s : SwapServerClient) (ctx : Ctx) (now : ℤ)
    (hash : List ℕ) (amt : ℤ) (rkey skey : List ℕ) (dl : GoTime) (inv : String)
    (respOut : ServerLoopOutResponse) (respIn : ServerLoopInResponse) (eOut eIn : String)
    (hsOut : s.newLoopOutSwap (withTimeout ctx now globalCallTimeout)
      ⟨hash, int64ToUInt64 amt, rkey, dl.unix⟩ = .ok respOut)
    (hsIn : s.newLoopInSwap (withTimeout ctx now globalCallTimeout)
      ⟨hash, int64ToUInt64 amt, skey, inv⟩ = .ok respIn)
    (hpOut : parsePubKey (copyTo33 respOut.senderKey) = .error eOut)
    (hpIn : parsePubKey (copyTo33 respIn.receiverKey) = .error eIn) :
    NewLoopOutSwap s ctx now hash amt rkey dl
      = (none, some (.errorf ("invalid sender key: " ++ eOut))) ∧
    NewLoopInSwap s ctx now hash amt skey inv
      = (none, some (.errorf ("invalid sender key: " ++ eIn))) := by
  constructor
  · simp only [NewLoopOutSwap, hsOut, hpOut]
  · simp only [NewLoopInSwap, hsIn, hpIn]

theorem claim2_witness :
    NewLoopOutSwap zeroKeyStub ⟨none⟩ 0 [] 1 [] ⟨0⟩
      = (none, some (.errorf ("invalid sender key: " ++
          "pubkey isn't on secp256k1 curve"))) ∧
    NewLoopInSwap zeroKeyStub ⟨none⟩ 0 [] 1 [] ""
      = (none, some (.errorf ("invalid sender key: " ++
          "pubkey isn't on secp256k1 curve"))) :=
  claim2_invalid_server_key_error zeroKeyStub ⟨none⟩ 0 [] 1 [] [] ⟨0⟩ ""
    ⟨"swapinvoice", "prepayinvoice", zeroKey33, 600000⟩ ⟨zeroKey33, 600000⟩
    "pubkey isn't on secp256k1 curve" "pubkey isn't on secp256k1 curve"
    rfl rfl (by decide) (by decide)

/-- C3: `GetLoopOutQuote` hex-decodes the payment-destination field; a
hex failure yields the decode error, a decoded length other than 33
yields the `invalid payment dest` error, and 33 decoded bytes are
returned as the quote's payment destination. -/
theorem claim3_payment_dest_decoding (s : SwapServerClient) (ctx : Ctx) (now : ℤ)
    (amt : ℤ) (dl : GoTime) (resp : ServerLoopOutQuoteResponse)
    (hs : s.loopOutQuote (withTimeout ctx now globalCallTimeout)
      ⟨int64ToUInt64 amt, dl.unix⟩ = .ok resp) :
    (hexDecode resp.swapPaymentDest = none →
      GetLoopOutQuote s ctx now amt dl = (none, some .hexDecodeError)) ∧
    (∀ dest, hexDecode resp.swapPaymentDest = some dest → dest.length ≠ 33 →
      GetLoopOutQuote s ctx now amt dl = (none, some (.newError "invalid payment dest"))) ∧
    (∀ dest, hexDecode resp.swapPaymentDest = some dest → dest.length = 33 →
      GetLoopOutQuote s ctx now amt dl =
        (some ⟨uint64ToInt64 resp.prepayAmt, uint64ToInt64 resp.swapFee,
               resp.cltvDelta, dest⟩, none)) := by
  refine ⟨?_, ?_, ?_⟩
  · intro hdec
    simp only [GetLoopOutQuote, hs, hdec]
  · intro dest hdec hlen
    simp only [GetLoopOutQuote, hs, hdec]
    rw [if_pos hlen]
  · intro dest hdec hlen
    simp only [GetLoopOutQuote, hs, hdec]
    rw [if_neg (by omega), copyTo33_of_length33 dest hlen]

theorem claim3_witness :
    hexDecode zeroDestHex = some zeroKey33 ∧
    GetLoopOutQuote zeroKeyStub ⟨none⟩ 0 100000 ⟨1700000000⟩
      = (some ⟨1000, 50, 144, zeroKey33⟩, none) :=
  ⟨by decide,
   (claim3_payment_dest_decoding zeroKeyStub ⟨none⟩ 0 100000 ⟨1700000000⟩
      ⟨1000, 50, 144, zeroDestHex⟩ rfl).2.2 zeroKey33 (by decide) (by decide)⟩

/-- C4: `GetLoopOutQuote` performs no curve-point validation on the
payment destination: whenever the field hex-decodes to exactly 33 bytes,
the call succeeds with those raw bytes, even when `parsePubKey` rejects
them. -/
theorem claim4_quote_no_curve_validation (s : SwapServerClient) (ctx : Ctx) (now : ℤ)
    (amt : ℤ) (dl : GoTime) (resp : ServerLoopOutQuoteResponse) (dest : List ℕ)
    (hs : s.loopOutQuote (withTimeout ctx now globalCallTimeout)
      ⟨int64ToUInt64 amt, dl.unix⟩ = .ok resp)
    (hdec : hexDecode resp.swapPaymentDest = some dest)
    (hlen : dest.length = 33)
    (_hinvalid : isOk (parsePubKey dest) = false) :
    GetLoopOutQuote s ctx now amt dl =
      (some ⟨uint64ToInt64 resp.prepayAmt, uint64ToInt64 resp.swapFee,
             resp.cltvDelta, dest⟩, none) := by
  simp only [GetLoopOutQuote, hs, hdec]
  rw [if_neg (by omega), copyTo33_of_length33 dest hlen]

theorem claim4_witness :
    isOk (parsePubKey zeroKey33) = false ∧
    GetLoopOutQuote zeroKeyStub ⟨none⟩ 0 100000 ⟨1700000000⟩
      = (some ⟨1000, 50, 144, zeroKey33⟩, none) :=
  ⟨by decide,
   claim4_quote_no_curve_validation zeroKeyStub ⟨none⟩ 0 100000 ⟨1700000000⟩
     ⟨1000, 50, 144, zeroDestHex⟩ zeroKey33 rfl (by decide) (by decide) (by decide)⟩

/-- C8: when the creation RPC succeeds and the returned sender key is a
valid compressed secp256k1 key, `NewLoopOutSwap` succeeds and returns the
populated response: the response's invoices, expiry and that sender key,
unmodified. -/
theorem claim8_loopout_success (s : SwapServerClient) (ctx : Ctx) (now : ℤ)
    (hash : List ℕ) (amt : ℤ) (rkey : List ℕ) (dl : GoTime)
    (resp : ServerLoopOutResponse) (pt : ℕ × ℕ)
    (hs : s.newLoopOutSwap (withTimeout ctx now globalCallTimeout)
      ⟨hash, int64ToUInt64 amt, rkey, dl.unix⟩ = .ok resp)
    (hlen : resp.senderKey.length = 33)
    (hp : parsePubKey resp.senderKey = .ok pt) :
    NewLoopOutSwap s ctx now hash amt rkey dl =
      (some ⟨resp.swapInvoice, resp.prepayInvoice, resp.senderKey, resp.expiry⟩, none) := by
  simp only [NewLoopOutSwap, hs, copyTo33_of_length33 _ hlen, hp]

theorem claim8_witness :
    parsePubKey genKeyBytes = .ok (genX, genY) ∧
    NewLoopOutSwap genStub ⟨none⟩ 0 [] 1 [] ⟨0⟩
      = (some ⟨"swapinvoice", "prepayinvoice", genKeyBytes, 600000⟩, none) :=
  ⟨by decide,
   claim8_loopout_success genStub ⟨none⟩ 0 [] 1 [] ⟨0⟩
     ⟨"swapinvoice", "prepayinvoice", genKeyBytes, 600000⟩ (genX, genY)
     rfl (by decide) (by decide)⟩

/-- C10: when `NewLoopInSwap` rejects the server-returned receiver key,
its error message reads `invalid sender key`, and it is exactly the error
`NewLoopOutSwap` produces for the same parse failure — the two creation
operations' key-validation failures are textually indistinguishable. -/
theorem claim10_error_text (s : SwapServerClient) (ctx : Ctx) (now : ℤ)
    (hash : List ℕ) (amt : ℤ) (skey : List ℕ) (inv : String)
    (respIn : ServerLoopInResponse) (e : String)
    (hsIn : s.newLoopInSwap (withTimeout ctx now globalCallTimeout)
      ⟨hash, int64ToUInt64 amt, skey, inv⟩ = .ok respIn)
    (hp : parsePubKey (copyTo33 respIn.receiverKey) = .error e) :
    NewLoopInSwap s ctx now hash amt skey inv
      = (none, some (.errorf ("invalid sender key: " ++ e))) ∧
    (∀ (s' : SwapServerClient) ctx' now' hash' amt' rkey' dl'
       (respOut : ServerLoopOutResponse),
      s'.newLoopOutSwap (withTimeout ctx' now' globalCallTimeout)
        ⟨hash', int64ToUInt64 amt', rkey', GoTime.unix dl'⟩ = .ok respOut →
      parsePubKey (copyTo33 respOut.senderKey) = .error e →
      NewLoopOutSwap s' ctx' now' hash' amt' rkey' dl'
        = (none, some (.errorf ("invalid sender key: " ++ e)))) := by
  constructor
  · simp only [NewLoopInSwap, hsIn, hp]
  · intro s' ctx' now' hash' amt' rkey' dl' respOut hsOut hpOut
    simp only [NewLoopOutSwap, hsOut, hpOut]

theorem claim10_witness :
    NewLoopInSwap zeroKeyStub ⟨none⟩ 0 [] 1 [] ""
      = (none, some (.errorf ("invalid sender key: " ++
          "pubkey isn't on secp256k1 curve"))) ∧
    NewLoopOutSwap zeroKeyStub ⟨none⟩ 0 [] 1 [] ⟨0⟩
      = (none, some (.errorf ("invalid sender key: " ++
          "pubkey isn't on secp256k1 curve"))) := by
  have h := claim10_error_text zeroKeyStub ⟨none⟩ 0 [] 1 [] "" ⟨zeroKey33, 600000⟩
    "pubkey isn't on secp256k1 curve" rfl (by decide)
  exact ⟨h.1, h.2 zeroKeyStub ⟨none⟩ 0 [] 1 [] ⟨0⟩
    ⟨"swapinvoice", "prepayinvoice", zeroKey33, 600000⟩ rfl (by decide)⟩

/-- C5: transport-mode selection in `getSwapServerConn` is a
deterministic function of the insecure flag and the certificate path with
first-match precedence: insecure set dials with no transport security
regardless of the path; insecure unset and non-empty path dials with
credentials pinned to the loaded certificate; insecure unset and empty
path dials with default TLS credentials.  In each case exactly one
transport option is appended after the interceptor option. -/
theorem claim5_transport_mode_selection {Conn : Type}
    (newClientTLSFromFile : String → Except String TransportCredentials)
    (dial : String → List DialOpt → Except String Conn)
    (address tlsPath : String) :
    (getSwapServerConn newClientTLSFromFile dial address true tlsPath =
      match dial address [.withUnaryInterceptor, .withInsecure] with
      | .error e => (none, some (.errorf ("unable to connect to RPC server: " ++ e)))
      | .ok conn => (some conn, none)) ∧
    (∀ creds, tlsPath ≠ "" → newClientTLSFromFile tlsPath = .ok creds →
      getSwapServerConn newClientTLSFromFile dial address false tlsPath =
        match dial address [.withUnaryInterceptor, .withTransportCredentials creds] with
        | .error e => (none, some (.errorf ("unable to connect to RPC server: " ++ e)))
        | .ok conn => (some conn, none)) ∧
    (getSwapServerConn newClientTLSFromFile dial address false "" =
      match dial address [.withUnaryInterceptor, .withTransportCredentials ⟨none⟩] with
      | .error e => (none, some (.errorf ("unable to connect to RPC server: " ++ e)))
      | .ok conn => (some conn, none)) := by
  refine ⟨?_, ?_, ?_⟩
  · simp only [getSwapServerConn, if_pos rfl]
    rfl
  · intro creds hne hload
    simp only [getSwapServerConn, hload]
    rw [if_neg (by simp), if_pos hne]
    rfl
  · simp only [getSwapServerConn]
    rw [if_neg (by simp), if_neg (by simp)]
    rfl

theorem claim5_witness :
    getSwapServerConn (fun _ => .ok ⟨some "certdata"⟩)
      (fun a o => .ok (a, o)) "swap.example:11009" true "/tls/cert.pem"
      = (some ("swap.example:11009",
          [DialOpt.withUnaryInterceptor, DialOpt.withInsecure]), none) ∧
    getSwapServerConn (fun _ => .ok ⟨some "certdata"⟩)
      (fun a o => .ok (a, o)) "swap.example:11009" false "/tls/cert.pem"
      = (some ("swap.example:11009",
          [DialOpt.withUnaryInterceptor,
           DialOpt.withTransportCredentials ⟨some "certdata"⟩]), none) := by
  have h := @claim5_transport_mode_selection (String × List DialOpt)
    (fun _ => .ok ⟨some "certdata"⟩) (fun a o => .ok (a, o))
    "swap.example:11009" "/tls/cert.pem"
  exact ⟨h.1, h.2.1 ⟨some "certdata"⟩ (by decide) rfl⟩

/-- C6: with the insecure flag unset and a certificate path whose load
fails, client construction fails with the certificate-load error and the
address is never dialed (the result is the same for every dialer). -/
theorem claim6_cert_load_error {Conn : Type}
    (newClientTLSFromFile : String → Except String TransportCredentials)
    (dial : String → List DialOpt → Except String Conn)
    (address tlsPath : String) (e : String)
    (hne : tlsPath ≠ "")
    (hload : newClientTLSFromFile tlsPath = .error e) :
    newSwapServerClient newClientTLSFromFile dial address false tlsPath
      = ((none : Option (grpcSwapServerClient Conn)), some (.tlsLoadError e)) ∧
    getSwapServerConn newClientTLSFromFile dial address false tlsPath
      = ((none : Option Conn), some (.tlsLoadError e)) := by
  have hconn : getSwapServerConn newClientTLSFromFile dial address false tlsPath
      = ((none : Option Conn), some (.tlsLoadError e)) := by
    simp only [getSwapServerConn, hload]
    rw [if_neg (by simp), if_pos hne]
  exact ⟨by simp only [newSwapServerClient, hconn], hconn⟩

theorem claim6_witness :
    newSwapServerClient
      (fun _ => .error "open /no/such/cert.pem: no such file or directory")
      (fun _ _ => .ok ()) "swap.example:11009" false "/no/such/cert.pem"
      = (none, some (.tlsLoadError
          "open /no/such/cert.pem: no such file or directory")) :=
  (claim6_cert_load_error
    (fun _ => .error "open /no/such/cert.pem: no such file or directory")
    (fun _ _ => .ok ()) "swap.example:11009" "/no/such/cert.pem"
    "open /no/such/cert.pem: no such file or directory"
    (by decide) rfl).1

/-- C7: every one of the six client operations calls the stub with the
context derived by `withTimeout ctx now globalCallTimeout` — whose
deadline is the stricter of the caller's deadline and `now` plus the
fixed global timeout, hence no later than a caller deadline that is
already earlier — and depends on the stub only through its value at that
derived context. -/
theorem claim7_deadline :
    (∀ (ctx : Ctx) (now : ℤ), ∃ dl,
      (withTimeout ctx now globalCallTimeout).deadline = some dl ∧
      dl ≤ now + globalCallTimeout ∧
      (∀ d, ctx.deadline = some d → dl ≤ d ∧ (d ≤ now + globalCallTimeout → dl = d))) ∧
    (∀ (s₁ s₂ : SwapServerClient) (ctx : Ctx) (now : ℤ),
      s₁.loopOutTerms (withTimeout ctx now globalCallTimeout)
        = s₂.loopOutTerms (withTimeout ctx now globalCallTimeout) →
      GetLoopOutTerms s₁ ctx now = GetLoopOutTerms s₂ ctx now) ∧
    (∀ (s₁ s₂ : SwapServerClient) (ctx : Ctx) (now amt : ℤ) (dl : GoTime),
      s₁.loopOutQuote (withTimeout ctx now globalCallTimeout)
        = s₂.loopOutQuote (withTimeout ctx now globalCallTimeout) →
      GetLoopOutQuote s₁ ctx now amt dl = GetLoopOutQuote s₂ ctx now amt dl) ∧
    (∀ (s₁ s₂ : SwapServerClient) (ctx : Ctx) (now : ℤ),
      s₁.loopInTerms (withTimeout ctx now globalCallTimeout)
        = s₂.loopInTerms (withTimeout ctx now globalCallTimeout) →
      GetLoopInTerms s₁ ctx now = GetLoopInTerms s₂ ctx now) ∧
    (∀ (s₁ s₂ : SwapServerClient) (ctx : Ctx) (now amt : ℤ),
      s₁.loopInQuote (withTimeout ctx now globalCallTimeout)
        = s₂.loopInQuote (withTimeout ctx now globalCallTimeout) →
      GetLoopInQuote s₁ ctx now amt = GetLoopInQuote s₂ ctx now amt) ∧
    (∀ (s₁ s₂ : SwapServerClient) (ctx : Ctx) (now : ℤ) (hash : List ℕ) (amt : ℤ)
       (rkey : List ℕ) (dl : GoTime),
      s₁.newLoopOutSwap (withTimeout ctx now globalCallTimeout)
        = s₂.newLoopOutSwap (withTimeout ctx now globalCallTimeout) →
      NewLoopOutSwap s₁ ctx now hash amt rkey dl
        = NewLoopOutSwap s₂ ctx now hash amt rkey dl) ∧
    (∀ (s₁ s₂ : SwapServerClient) (ctx : Ctx) (now : ℤ) (hash : List ℕ) (amt : ℤ)
       (skey : List ℕ) (inv : String),
      s₁.newLoopInSwap (withTimeout ctx now globalCallTimeout)
        = s₂.newLoopInSwap (withTimeout ctx now globalCallTimeout) →
      NewLoopInSwap s₁ ctx now hash amt skey inv
        = NewLoopInSwap s₂ ctx now hash amt skey inv) := by
  refine ⟨?_, ?_, ?_, ?_, ?_, ?_, ?_⟩
  · intro ctx now
    cases hd : ctx.deadline with
    | none =>
      refine ⟨now + globalCallTimeout, ?_, le_refl _, ?_⟩
      · simp [withTimeout, hd]
      · intro d hds
        cases hds
    | some d =>
      refine ⟨min d (now + globalCallTimeout), ?_, min_le_right _ _, ?_⟩
      · simp [withTimeout, hd]
      · intro d' hds
        injection hds with hds
        subst hds
        exact ⟨min_le_left _ _, fun hle => min_eq_left hle⟩
  · intro s₁ s₂ ctx now h
    simp only [GetLoopOutTerms, h]
  · intro s₁ s₂ ctx now amt dl h
    simp only [GetLoopOutQuote, h]
  · intro s₁ s₂ ctx now h
    simp only [GetLoopInTerms, h]
  · intro s₁ s₂ ctx now amt h
    simp only [GetLoopInQuote, h]
  · intro s₁ s₂ ctx now hash amt rkey dl h
    simp only [NewLoopOutSwap, h]
  · intro s₁ s₂ ctx now hash amt skey inv h
    simp only [NewLoopInSwap, h]

theorem claim7_witness :
    (withTimeout ⟨some 7⟩ 0 globalCallTimeout).deadline = some 7 ∧
    GetLoopOutTerms zeroKeyStub ⟨some 7⟩ 0
      = GetLoopOutTerms zeroKeyStub ⟨some 7⟩ 0 := by
  obtain ⟨dl, hdl, -, hmin⟩ := claim7_deadline.1 ⟨some 7⟩ 0
  obtain ⟨-, heq⟩ := hmin 7 rfl
  refine ⟨?_, claim7_deadline.2.1 zeroKeyStub zeroKeyStub ⟨some 7⟩ 0 rfl⟩
  rw [hdl, heq (by decide)]

/-- C9: each of the six client operations returns exactly one of a
result and an error — on success the error component is `none`, on every
failure path the result component is `none`. -/
theorem claim9_result_xor_error :
    (∀ (s : SwapServerClient) (ctx : Ctx) (now : ℤ),
      (∃ r, GetLoopOutTerms s ctx now = (some r, none)) ∨
      (∃ e, GetLoopOutTerms s ctx now = (none, some e))) ∧
    (∀ (s : SwapServerClient) (ctx : Ctx) (now amt : ℤ) (dl : GoTime),
      (∃ r, GetLoopOutQuote s ctx now amt dl = (some r, none)) ∨
      (∃ e, GetLoopOutQuote s ctx now amt dl = (none, some e))) ∧
    (∀ (s : SwapServerClient) (ctx : Ctx) (now : ℤ),
      (∃ r, GetLoopInTerms s ctx now = (some r, none)) ∨
      (∃ e, GetLoopInTerms s ctx now = (none, some e))) ∧
    (∀ (s : SwapServerClient) (ctx : Ctx) (now amt : ℤ),
      (∃ r, GetLoopInQuote s ctx now amt = (some r, none)) ∨
      (∃ e, GetLoopInQuote s ctx now amt = (none, some e))) ∧
    (∀ (s : SwapServerClient) (ctx : Ctx) (now : ℤ) (hash : List ℕ) (amt : ℤ)
       (rkey : List ℕ) (dl : GoTime),
      (∃ r, NewLoopOutSwap s ctx now hash amt rkey dl = (some r, none)) ∨
      (∃ e, NewLoopOutSwap s ctx now hash amt rkey dl = (none, some e))) ∧
    (∀ (s : SwapServerClient) (ctx : Ctx) (now : ℤ) (hash : List ℕ) (amt : ℤ)
       (skey : List ℕ) (inv : String),
      (∃ r, NewLoopInSwap s ctx now hash amt skey inv = (some r, none)) ∨
      (∃ e, NewLoopInSwap s ctx now hash amt skey inv = (none, some e))) := by
  refine ⟨?_, ?_, ?_, ?_, ?_, ?_⟩
  · intro s ctx now
    simp only [GetLoopOutTerms]
    split
    · exact Or.inr ⟨_, rfl⟩
    · exact Or.inl ⟨_, rfl⟩
  · intro s ctx now amt dl
    simp only [GetLoopOutQuote]
    split
    · exact Or.inr ⟨_, rfl⟩
    · split
      · exact Or.inr ⟨_, rfl⟩
      · split
        · exact Or.inr ⟨_, rfl⟩
        · exact Or.inl ⟨_, rfl⟩
  · intro s ctx now
    simp only [GetLoopInTerms]
    split
    · exact Or.inr ⟨_, rfl⟩
    · exact Or.inl ⟨_, rfl⟩
  · intro s ctx now amt
    simp only [GetLoopInQuote]
    split
    · exact Or.inr ⟨_, rfl⟩
    · exact Or.inl ⟨_, rfl⟩
  · intro s ctx now hash amt rkey dl
    simp only [NewLoopOutSwap]
    split
    · exact Or.inr ⟨_, rfl⟩
    · split
      · exact Or.inr ⟨_, rfl⟩
      · exact Or.inl ⟨_, rfl⟩
  · intro s ctx now hash amt skey inv
    simp only [NewLoopInSwap]
    split
    · exact Or.inr ⟨_, rfl⟩
    · split
      · exact Or.inr ⟨_, rfl⟩
      · exact Or.inl ⟨_, rfl⟩

theorem claim9_witness :
    ((∃ r, NewLoopOutSwap zeroKeyStub ⟨none⟩ 0 [] 1 [] ⟨0⟩ = (some r, none)) ∨
     (∃ e, NewLoopOutSwap zeroKeyStub ⟨none⟩ 0 [] 1 [] ⟨0⟩ = (none, some e))) ∧
    ((∃ r, GetLoopOutTerms zeroKeyStub ⟨none⟩ 0 = (some r, none)) ∨
     (∃ e, GetLoopOutTerms zeroKeyStub ⟨none⟩ 0 = (none, some e))) :=
  ⟨claim9_result_xor_error.2.2.2.2.1 zeroKeyStub ⟨none⟩ 0 [] 1 [] ⟨0⟩,
   claim9_result_xor_error.1 zeroKeyStub ⟨none⟩ 0⟩

/-- C1 fails as stated: a server-returned key of length 34 — a valid
compressed key followed by a garbage byte — is accepted by both creation
calls, because the key is copied into a 33-byte buffer (truncating) before
validation, so validation does not reject every byte string whose length
is not 33. -/
theorem claim1_counterexample :
    (genKeyBytes ++ [0]).length ≠ 33 ∧
    NewLoopOutSwap gen34Stub ⟨none⟩ 0 [] 1 [] ⟨0⟩
      = (some ⟨"swapinvoice", "prepayinvoice", genKeyBytes, 600000⟩, none) ∧
    NewLoopInSwap gen34Stub ⟨none⟩ 0 [] 1 [] ""
      = (some ⟨genKeyBytes, 600000⟩, none) :=
  ⟨by decide, by decide, by decide⟩

/-- C1, amended: server-key validation, as applied by `NewLoopOutSwap`
and `NewLoopInSwap`, first copies the server-returned key into a zeroed
33-byte buffer (truncating longer input, zero-padding shorter input) and
then accepts exactly when that copied buffer is a valid 33-byte
compressed secp256k1 key; in particular every valid 33-byte compressed
key is accepted and every other 33-byte string is rejected, while a
string whose length is not 33 is accepted exactly when its
truncation/padding forms a valid key. -/
theorem claim1_server_key_validation
    (s : SwapServerClient) (ctx : Ctx) (now : ℤ) (hash : List ℕ) (amt : ℤ)
    (rkey skey : List ℕ) (dl : GoTime) (inv : String)
    (respOut : ServerLoopOutResponse) (respIn : ServerLoopInResponse)
    (hbOut : ∀ b ∈ respOut.senderKey, b < 256)
    (hbIn : ∀ b ∈ respIn.receiverKey, b < 256)
    (hsOut : s.newLoopOutSwap (withTimeout ctx now globalCallTimeout)
      ⟨hash, int64ToUInt64 amt, rkey, dl.unix⟩ = .ok respOut)
    (hsIn : s.newLoopInSwap (withTimeout ctx now globalCallTimeout)
      ⟨hash, int64ToUInt64 amt, skey, inv⟩ = .ok respIn) :
    ((NewLoopOutSwap s ctx now hash amt rkey dl).2 = none ↔
      IsValidCompressedPubKey (copyTo33 respOut.senderKey)) ∧
    ((NewLoopInSwap s ctx now hash amt skey inv).2 = none ↔
      IsValidCompressedPubKey (copyTo33 respIn.receiverKey)) ∧
    (respOut.senderKey.length = 33 → copyTo33 respOut.senderKey = respOut.senderKey) ∧
    (respIn.receiverKey.length = 33 → copyTo33 respIn.receiverKey = respIn.receiverKey) := by
  have hiffOut := parsePubKey_33_iff (copyTo33 respOut.senderKey)
    (copyTo33_length _) (copyTo33_bounded _ hbOut)
  have hiffIn := parsePubKey_33_iff (copyTo33 respIn.receiverKey)
    (copyTo33_length _) (copyTo33_bounded _ hbIn)
  refine ⟨?_, ?_, copyTo33_of_length33 _, copyTo33_of_length33 _⟩
  · rcases hcase : parsePubKey (copyTo33 respOut.senderKey) with e | pt
    · simp only [NewLoopOutSwap, hsOut, hcase]
      constructor
      · intro h
        simp at h
      · intro hv
        exfalso
        have ht := hiffOut.mpr hv
        rw [hcase] at ht
        simp [isOk] at ht
    · simp only [NewLoopOutSwap, hsOut, hcase]
      constructor
      · intro _
        exact hiffOut.mp (by rw [hcase]; rfl)
      · intro _
        trivial
  · rcases hcase : parsePubKey (copyTo33 respIn.receiverKey) with e | pt
    · simp only [NewLoopInSwap, hsIn, hcase]
      constructor
      · intro h
        simp at h
      · intro hv
        exfalso
        have ht := hiffIn.mpr hv
        rw [hcase] at ht
        simp [isOk] at ht
    · simp only [NewLoopInSwap, hsIn, hcase]
      constructor
      · intro _
        exact hiffIn.mp (by rw [hcase]; rfl)
      · intro _
        trivial

theorem claim1_witness :
    IsValidCompressedPubKey (copyTo33 genKeyBytes) ∧
    (NewLoopOutSwap genStub ⟨none⟩ 0 [] 1 [] ⟨0⟩).2 = none := by
  have hvalid : IsValidCompressedPubKey (copyTo33 genKeyBytes) :=
    ⟨by decide, by decide, by decide, genY, by decide, by decide, by decide⟩
  exact ⟨hvalid,
    (claim1_server_key_validation genStub ⟨none⟩ 0 [] 1 [] [] ⟨0⟩ ""
      ⟨"swapinvoice", "prepayinvoice", genKeyBytes, 600000⟩ ⟨genKeyBytes, 600000⟩
      (by decide) (by decide) rfl rfl).1.mpr hvalid⟩
